import Mathlib

/-!
Shallow embedding of `src/app.py` (a Gradio chatbot front-end that relays
text/audio turns to a remote inference API), together with theorems checking
the natural-language specification against this embedding.

Modelling conventions:
* Python values that can reach the dynamic parts of the code are modelled by
  the inductive `PyVal` (None, bool, int, str, list, dict with string keys —
  every shape this program ever builds or parses from JSON).
* The outside world (filesystem, S3 client, HTTP API, JSON parser) is an
  explicit `Env` of oracles; one call of `chat_with_api` observes one fixed
  snapshot of that world.
* The module-level mutable `conversation_history` is passed in explicitly and
  the resulting history is part of the outcome.
* An uncaught Python exception is the `ChatOutcome.raised` constructor, which
  carries the (already mutated or unchanged) history at the raise point.
* `duration = num_frames / float(frame_rate)` and `duration < 0.5` are modelled
  exactly over the naturals as `2 * numFrames < frameRate` (with the
  `frame_rate == 0` `ZeroDivisionError` — caught by `except Exception` in the
  source — as a separate branch); `str.strip()` is modelled by `pyStrip`,
  which drops leading and trailing whitespace characters.
-/

/-- A Python value as this program can produce or parse one. -/
inductive PyVal where
  | none
  | bool (b : Bool)
  | int (n : Int)
  | str (s : String)
  | list (xs : List PyVal)
  | dict (kvs : List (String × PyVal))

/-- First-match lookup in a (string-keyed) Python dict, i.e. `d[k]` presence / `d.get(k)`. -/
def dictGet (kvs : List (String × PyVal)) (k : String) : Option PyVal :=
  match kvs with
  | [] => Option.none
  | (k', v) :: rest => if k' = k then some v else dictGet rest k

mutual

/-- Python `repr`, approximated closely enough for the debug-string fallbacks
(the program never branches on the repr text). -/
def pyRepr : PyVal → String
  | PyVal.none => "None"
  | PyVal.bool true => "True"
  | PyVal.bool false => "False"
  | PyVal.int n => toString n
  | PyVal.str s => "\x27" ++ s ++ "\x27"
  | PyVal.list xs => "[" ++ pyReprItems xs ++ "]"
  | PyVal.dict kvs => "\x7b" ++ pyReprPairs kvs ++ "\x7d"

/-- Comma-separated reprs of the items of a Python list. -/
def pyReprItems : List PyVal → String
  | [] => ""
  | [v] => pyRepr v
  | v :: rest => pyRepr v ++ ", " ++ pyReprItems rest

/-- Comma-separated key-colon-value reprs of the pairs of a Python dict. -/
def pyReprPairs : List (String × PyVal) → String
  | [] => ""
  | [(k, v)] => "\x27" ++ k ++ "\x27: " ++ pyRepr v
  | (k, v) :: rest => "\x27" ++ k ++ "\x27: " ++ pyRepr v ++ ", " ++ pyReprPairs rest

end

/-- Python `str(v)`: the string itself for a str, otherwise (for the types in
`PyVal`) the same text as `repr`. -/
def pyStr : PyVal → String
  | PyVal.str s => s
  | v => pyRepr v

/-- Python truthiness of a `PyVal` (`bool(v)`). -/
def pyTruthy : PyVal → Bool
  | PyVal.none => false
  | PyVal.bool b => b
  | PyVal.int n => n != 0
  | PyVal.str s => !s.isEmpty
  | PyVal.list xs => !xs.isEmpty
  | PyVal.dict kvs => !kvs.isEmpty

/-- Python `s.strip()`: the string without its leading and trailing
whitespace. -/
def pyStrip (s : String) : String :=
  String.mk (((s.data.dropWhile Char.isWhitespace).reverse.dropWhile Char.isWhitespace).reverse)

/-- One element of the module-level `conversation_history`: a dict with the
keys `"role"` and `"content"` (every entry the program appends has both). -/
structure Entry where
  role : String
  content : PyVal

/-- One element of the list `format_conversation_for_gradio` returns: a dict
with a `"role"` and a `"content"` key (the extracted display content). -/
structure DisplayEntry where
  role : String
  content : PyVal

/-- Content extraction of `format_conversation_for_gradio` for one entry
(`src/app.py` lines 43–51): the `"text"` of the first element when the content is a
list headed by a dict, the `"text"` of a bare dict, otherwise a repr/str
fallback. -/
def formatEntryContent : PyVal → PyVal
  | PyVal.list xs =>
    match xs with
    | PyVal.dict kvs :: _ => (dictGet kvs "text").getD (PyVal.str (pyRepr (PyVal.dict kvs)))
    | _ => PyVal.str (pyRepr (PyVal.list xs))
  | PyVal.dict kvs => (dictGet kvs "text").getD (PyVal.str (pyRepr (PyVal.dict kvs)))
  | c => PyVal.str (pyStr c)

/-- The function `format_conversation_for_gradio` (`src/app.py` lines 36–59). -/
def format_conversation_for_gradio (conversation_history : List Entry) : List DisplayEntry :=
  conversation_history.map (fun e => { role := e.role, content := formatEntryContent e.content })

/-- The `"text"` part `format_conversation_for_gradio` looks for: the `"text"`
value of the first element when content is a list headed by a dict, or of a
bare dict. `Option.none` means the fallback branch is taken. -/
def textPartOf : PyVal → Option PyVal
  | PyVal.list (PyVal.dict kvs :: _) => dictGet kvs "text"
  | PyVal.dict kvs => dictGet kvs "text"
  | _ => Option.none

/-- A Python exception kind that can escape `chat_with_api` uncaught. -/
inductive PyExc where
  | boto3Exc
  | typeErr
  | attributeErr
  | keyErr
deriving DecidableEq

/-- A `requests` exception at the API call: `HTTPError` (from
`raise_for_status`, carrying its message text) or any other
`RequestException`. -/
inductive ApiExc where
  | httpError (msg : String)
  | requestExc

/-- Result of `wave.open` plus the frame queries: the frame rate and frame
count on success; `wave.Error`; or any other exception. -/
inductive WavResult where
  | ok (frameRate : Nat) (numFrames : Nat)
  | waveErr
  | otherErr

/-- One snapshot of the outside world observed by a single submission:
filesystem, S3 client, HTTP API and the JSON decoder. `apiPost` is keyed by
the conversation history, since the request body is exactly
`{"input_data": {"input_string": conversation_history}}`. -/
structure Env where
  pathExists : String → Bool
  getSize : String → Nat
  wavOpen : String → WavResult
  s3Put : String → Except Unit Unit
  timestamp : Nat
  apiPost : List Entry → Except ApiExc String
  jsonLoads : String → Option PyVal

def BUCKET_NAME : String := "chatbot-storage-2025-01-17"

def REGION_NAME : String := "eu-north-1"

/-- The public URL `upload_to_s3` constructs from the timestamped key. -/
def s3PublicUrl (t : Nat) : String :=
  "https://" ++ BUCKET_NAME ++ ".s3." ++ REGION_NAME ++ ".amazonaws.com/audio_" ++ toString t ++ ".wav"

/-- The function `upload_to_s3` (`src/app.py` lines 26–34): `None` when the file does not
exist; otherwise `s3_client.upload_file` runs — a transport failure there is
an (uncaught) boto3 exception — and the public URL is returned. -/
def upload_to_s3 (env : Env) (file_path : String) : Except PyExc (Option String) :=
  if !(env.pathExists file_path) then Except.ok Option.none
  else
    match env.s3Put file_path with
    | Except.error _ => Except.error PyExc.boto3Exc
    | Except.ok _ => Except.ok (some (s3PublicUrl env.timestamp))

/-- Model of `gr.update(...)`: the new component value, and the `visible` kwarg when
passed. -/
structure GrUpdate where
  value : PyVal
  visible : Option Bool

/-- The tuple a normal return of `chat_with_api` produces, together with the
state of the global `conversation_history` after the call. -/
structure ChatResult where
  history : List Entry
  display : List DisplayEntry
  audio : GrUpdate
  errorBox : GrUpdate

/-- Outcome of one `chat_with_api` call: a normal return, or an uncaught
exception (carrying the history state at the raise point). -/
inductive ChatOutcome where
  | ok (r : ChatResult)
  | raised (e : PyExc) (history : List Entry)

/-- Update `gr.update(value=None)` for the audio slot. -/
def noAudioUpd : GrUpdate := { value := PyVal.none, visible := Option.none }

/-- Update `gr.update(value=msg, visible=True)` for the error banner. -/
def errShow (msg : String) : GrUpdate := { value := PyVal.str msg, visible := some true }

/-- Update `gr.update(value=None, visible=False)` for the error banner. -/
def errHide : GrUpdate := { value := PyVal.none, visible := some false }

/-- A `return format_conversation_for_gradio(...), gr.update(value=None), <err>`
statement of `chat_with_api`, with the history it leaves behind. -/
def earlyReturn (hist : List Entry) (e : GrUpdate) : ChatOutcome :=
  ChatOutcome.ok { history := hist, display := format_conversation_for_gradio hist,
                   audio := noAudioUpd, errorBox := e }

/-- Truthiness of the `audio_file` argument (a filepath string or `None`). -/
def audioTruthy : Option String → Bool
  | Option.none => false
  | some s => !s.isEmpty

/-- The `{"type": "text", "text": user_input}` part (`src/app.py` line 73). -/
def textPart (s : String) : PyVal :=
  PyVal.dict [("type", PyVal.str "text"), ("text", PyVal.str s)]

/-- The `{"type": "audio_url", "audio_url": {"url": s3_url}}` part
(`src/app.py` line 100). -/
def audioPart (url : String) : PyVal :=
  PyVal.dict [("type", PyVal.str "audio_url"), ("audio_url", PyVal.dict [("url", PyVal.str url)])]

/-- The user turn appended at `src/app.py` line 109. -/
def userTurn (user_content : List PyVal) : Entry :=
  { role := "user", content := PyVal.list user_content }

/-- The assistant turn appended at `src/app.py` line 153. -/
def assistantTurn (s : String) : Entry :=
  { role := "assistant", content := PyVal.list [textPart s] }

/-- Python `k in v` for a string `k`: key membership for a dict, element
membership for a list, substring test for a str, `TypeError` otherwise. -/
def pyContains (v : PyVal) (k : String) : Except PyExc Bool :=
  match v with
  | PyVal.dict kvs => Except.ok (dictGet kvs k).isSome
  | PyVal.list xs => Except.ok (xs.any (fun x => match x with | PyVal.str t => k = t | _ => false))
  | PyVal.str s => Except.ok (decide (List.IsInfix k.toList s.toList))
  | _ => Except.error PyExc.typeErr

/-- Python `v.get(k, None)`: only a dict has `.get`; anything else raises
`AttributeError`. -/
def pyDotGet (v : PyVal) (k : String) : Except PyExc PyVal :=
  match v with
  | PyVal.dict kvs => Except.ok ((dictGet kvs k).getD PyVal.none)
  | _ => Except.error PyExc.attributeErr

/-- Evaluation of `api_response["error"].strip()`: the `"error"` item of the parsed
response as a string; `TypeError` when the response is not a dict (list/str
indexing with a string key), `AttributeError` when the item is not a str
(no `.strip`). -/
def errorField (v : PyVal) : Except PyExc String :=
  match v with
  | PyVal.dict kvs =>
    match dictGet kvs "error" with
    | some (PyVal.str s) => Except.ok s
    | some _ => Except.error PyExc.attributeErr
    | Option.none => Except.error PyExc.keyErr
  | PyVal.list _ => Except.error PyExc.typeErr
  | PyVal.str _ => Except.error PyExc.typeErr
  | _ => Except.error PyExc.typeErr

/-- Lines 61–102 of `chat_with_api`: the empty-input guard, the text part, and
the whole audio block (validation, upload). `Sum.inl` is an early return or an
uncaught exception; `Sum.inr user_content` proceeds to line 104. -/
def audioPhase (env : Env) (user_input : String) (audio_file : Option String)
    (hist : List Entry) : Sum ChatOutcome (List PyVal) :=
  if (pyStrip user_input).isEmpty && !(audioTruthy audio_file) then
    Sum.inl (earlyReturn hist errHide)
  else
    let uc0 : List PyVal := if !(pyStrip user_input).isEmpty then [textPart user_input] else []
    if audioTruthy audio_file then
      let path := audio_file.getD ""
      if !(env.pathExists path) then
        Sum.inl (earlyReturn hist (errShow "⚠️ Error: Invalid or missing audio file."))
      else if env.getSize path < 2048 then
        Sum.inl (earlyReturn hist (errShow "⚠️ Error: Audio file too small."))
      else
        match env.wavOpen path with
        | WavResult.waveErr =>
          Sum.inl (earlyReturn hist (errShow "⚠️ Error: Unable to process audio file."))
        | WavResult.otherErr =>
          Sum.inl (earlyReturn hist (errShow "⚠️ Error: Unexpected error while processing audio."))
        | WavResult.ok frameRate numFrames =>
          if frameRate = 0 then
            Sum.inl (earlyReturn hist (errShow "⚠️ Error: Unexpected error while processing audio."))
          else if 2 * numFrames < frameRate then
            Sum.inl (earlyReturn hist (errShow "⚠️ Error: Recording too short."))
          else
            match upload_to_s3 env path with
            | Except.error e => Sum.inl (ChatOutcome.raised e hist)
            | Except.ok Option.none =>
              Sum.inl (earlyReturn hist (errShow "⚠️ Error: Audio upload failed."))
            | Except.ok (some url) => Sum.inr (uc0 ++ [audioPart url])
    else Sum.inr uc0

/-- Lines 104–156 of `chat_with_api`: empty-content guard, user-turn append,
API call, response parsing (with the double-decode shim), error-field
handling, assistant-turn append. The line-112 structure validation
(`"role" in message and "content" in message`) always passes here because
every `Entry` carries both fields by construction, exactly as every entry the
program appends does. -/
def afterAudio (env : Env) (hist : List Entry) (user_content : List PyVal) : ChatOutcome :=
  if user_content.isEmpty then earlyReturn hist (errShow "⚠️ Error: Empty message.")
  else
    let hist1 := hist ++ [userTurn user_content]
    match env.apiPost hist1 with
    | Except.error (ApiExc.httpError e) => earlyReturn hist1 (errShow ("⚠️ API Error: " ++ e))
    | Except.error ApiExc.requestExc => earlyReturn hist1 (errShow "⚠️ API request failed.")
    | Except.ok body =>
      match env.jsonLoads body with
      | Option.none => earlyReturn hist1 (errShow "⚠️ API Error: Invalid JSON response.")
      | some v0 =>
        match (match v0 with | PyVal.str s => env.jsonLoads s | v => some v) with
        | Option.none => earlyReturn hist1 (errShow "⚠️ API Error: Invalid JSON response.")
        | some api_response =>
          match pyContains api_response "error" with
          | Except.error e => ChatOutcome.raised e hist1
          | Except.ok true =>
            match errorField api_response with
            | Except.error e => ChatOutcome.raised e hist1
            | Except.ok s =>
              earlyReturn hist1 (errShow (if (pyStrip s).isEmpty then "⚠️ API Error: No response" else pyStrip s))
          | Except.ok false =>
            match pyDotGet api_response "response" with
            | Except.error e => ChatOutcome.raised e hist1
            | Except.ok (PyVal.str s) =>
              let hist2 := hist1 ++ [assistantTurn s]
              ChatOutcome.ok { history := hist2, display := format_conversation_for_gradio hist2,
                               audio := noAudioUpd, errorBox := errHide }
            | Except.ok _ =>
              ChatOutcome.ok { history := hist1, display := format_conversation_for_gradio hist1,
                               audio := noAudioUpd, errorBox := errHide }

/-- The function `chat_with_api` (`src/app.py` lines 61–156). -/
def chat_with_api (env : Env) (user_input : String) (audio_file : Option String)
    (hist : List Entry) : ChatOutcome :=
  match audioPhase env user_input audio_file hist with
  | Sum.inl o => o
  | Sum.inr user_content => afterAudio env hist user_content

/-- The function `reset_conversation` (`src/app.py` lines 158–164): the cleared history and
the two UI updates `gr.update(value=[])`, `gr.update(value=None)`. -/
def reset_conversation : List Entry × GrUpdate × GrUpdate :=
  ([], { value := PyVal.list [], visible := Option.none },
       { value := PyVal.none, visible := Option.none })

/-- The history state an outcome leaves behind. -/
def ChatOutcome.histOf : ChatOutcome → List Entry
  | ChatOutcome.ok r => r.history
  | ChatOutcome.raised _ h => h

/-- A concrete world for witnesses: every path exists, files are 4096 bytes,
WAVs decode to one second at 16 kHz, the S3 put succeeds, and the API and JSON
decoder behave as the two parameters say. -/
def baseEnv (post : List Entry → Except ApiExc String) (j : String → Option PyVal) : Env :=
  { pathExists := fun _ => true, getSize := fun _ => 4096,
    wavOpen := fun _ => WavResult.ok 16000 16000, s3Put := fun _ => Except.ok (),
    timestamp := 1737100000, apiPost := post, jsonLoads := j }

/-- Variant of `baseEnv` whose S3 put raises a transport exception. -/
def s3FailEnv : Env :=
  { baseEnv (fun _ => Except.ok "") (fun _ => Option.none) with s3Put := fun _ => Except.error () }

/-- Claim C6: submitting text whose trimmed value is empty together with no
audio file is a silent no-op — the returned transcript is the (normalized)
current history, the history is unchanged, and the error banner is hidden. -/
theorem empty_input_silent_noop (env : Env) (hist : List Entry) (ui : String)
    (h : (pyStrip ui).isEmpty = true) :
    chat_with_api env ui Option.none hist =
      ChatOutcome.ok { history := hist, display := format_conversation_for_gradio hist,
                       audio := noAudioUpd, errorBox := errHide } := by
  simp [chat_with_api, audioPhase, audioTruthy, h, earlyReturn]

/-- Witness for C6 at the concrete input `"   "` with an empty history. -/
theorem empty_input_silent_noop_witness :
    (pyStrip "   ").isEmpty = true ∧
    chat_with_api (baseEnv (fun _ => Except.ok "") (fun _ => Option.none)) "   " Option.none [] =
      ChatOutcome.ok { history := [], display := [], audio := noAudioUpd, errorBox := errHide } :=
  ⟨by decide, empty_input_silent_noop _ [] "   " (by decide)⟩

/-- Variant of `baseEnv` whose files are only 100 bytes. -/
def smallFileEnv : Env :=
  { baseEnv (fun _ => Except.ok "") (fun _ => Option.none) with getSize := fun _ => 100 }

/-- Claim C5, counterexample to the quoted message: on an existing 100-byte
file the submission is rejected, but the user-visible message is
`"⚠️ Error: Audio file too small."`, not the bare `"Audio file too small"`
the claim states. -/
theorem small_wav_message_counterexample :
    chat_with_api smallFileEnv "" (some "a.wav") [] =
      ChatOutcome.ok { history := [], display := [], audio := noAudioUpd,
                       errorBox := errShow "⚠️ Error: Audio file too small." } ∧
    "⚠️ Error: Audio file too small." ≠ "Audio file too small" :=
  ⟨rfl, by decide⟩

/-- Claim C5 as amended: for every existing audio file smaller than 2048
bytes (and any text input), the submission is rejected with the user-visible
message `"⚠️ Error: Audio file too small."` and the history is unchanged. -/
theorem small_wav_rejected (env : Env) (hist : List Entry) (ui p : String)
    (hp : p.isEmpty = false)
    (hex : env.pathExists p = true)
    (hsz : env.getSize p < 2048) :
    chat_with_api env ui (some p) hist =
      ChatOutcome.ok { history := hist, display := format_conversation_for_gradio hist,
                       audio := noAudioUpd,
                       errorBox := errShow "⚠️ Error: Audio file too small." } := by
  simp [chat_with_api, audioPhase, audioTruthy, hp, hex, hsz, earlyReturn]

/-- Witness for the amended C5 at a concrete 100-byte file. -/
theorem small_wav_rejected_witness :
    ("a.wav".isEmpty = false ∧ smallFileEnv.pathExists "a.wav" = true ∧
      smallFileEnv.getSize "a.wav" < 2048) ∧
    chat_with_api smallFileEnv "hello" (some "a.wav") [] =
      ChatOutcome.ok { history := [], display := [], audio := noAudioUpd,
                       errorBox := errShow "⚠️ Error: Audio file too small." } :=
  ⟨⟨rfl, rfl, by decide⟩, small_wav_rejected smallFileEnv [] "hello" "a.wav" rfl rfl (by decide)⟩

/-- Claim C2: on a fully validated audio file whose S3 put raises a transport
exception, `chat_with_api` does NOT return a structured error message — the
boto3 exception escapes uncaught (`upload_to_s3` only signals failure by
returning `None` for a missing file; nothing catches the exception of the client).
The history is indeed left unchanged (the raise happens before the user turn
is appended). -/
theorem upload_exception_uncaught :
    chat_with_api s3FailEnv "hi" (some "a.wav") [] =
      ChatOutcome.raised PyExc.boto3Exc [] :=
  rfl

/-- Claim C9: whenever the trimmed text is non-empty, the first content part
the submission carries past the audio phase is `{"type": "text", "text":
user_input}` with the original, untrimmed input string — stripping is used
only for the emptiness test. -/
theorem text_stored_verbatim (env : Env) (hist : List Entry) (ui : String)
    (audio_file : Option String) (uc : List PyVal)
    (h1 : (pyStrip ui).isEmpty = false)
    (h2 : audioPhase env ui audio_file hist = Sum.inr uc) :
    uc.head? = some (textPart ui) := by
  by_cases hA : audioTruthy audio_file
  · simp only [audioPhase, h1, hA, Bool.false_and, Bool.not_false, if_true, if_false,
      Bool.false_eq_true, ite_false, ite_true] at h2
    repeat' split at h2
    all_goals try simp_all
    all_goals (subst h2; rfl)
  · simp [audioPhase, h1, hA] at h2
    simp [← h2]

/-- Witness for C9: the input `"  hi  "` (whitespace intact) is stored
verbatim in the text part. -/
theorem text_stored_verbatim_witness :
    ((pyStrip "  hi  ").isEmpty = false ∧
      audioPhase (baseEnv (fun _ => Except.ok "") (fun _ => Option.none)) "  hi  " Option.none [] =
        Sum.inr [textPart "  hi  "]) ∧
    [textPart "  hi  "].head? = some (textPart "  hi  ") :=
  ⟨⟨by decide, rfl⟩,
    text_stored_verbatim (baseEnv (fun _ => Except.ok "") (fun _ => Option.none)) [] "  hi  "
      Option.none [textPart "  hi  "] (by decide) rfl⟩

/-- With non-empty trimmed text and no audio file, the audio phase is passed
with exactly the one text part, and `chat_with_api` continues at line 104. -/
theorem chat_text_only (env : Env) (hist : List Entry) (ui : String)
    (h1 : (pyStrip ui).isEmpty = false) :
    chat_with_api env ui Option.none hist = afterAudio env hist [textPart ui] := by
  simp [chat_with_api, audioPhase, audioTruthy, h1]

/-- Claim C1: for every prior history, non-empty text with no audio and an
API call answering `{"response": "hi"}` grows the history by exactly the user
turn followed by the assistant turn, and the normalized transcript ends with
`{role: assistant, text: "hi"}`. -/
theorem chat_success_appends_two_turns (env : Env) (hist : List Entry) (ui body : String)
    (h1 : (pyStrip ui).isEmpty = false)
    (h2 : env.apiPost (hist ++ [userTurn [textPart ui]]) = Except.ok body)
    (h3 : env.jsonLoads body = some (PyVal.dict [("response", PyVal.str "hi")])) :
    chat_with_api env ui Option.none hist =
      ChatOutcome.ok ⟨hist ++ [userTurn [textPart ui], assistantTurn "hi"],
        format_conversation_for_gradio (hist ++ [userTurn [textPart ui], assistantTurn "hi"]),
        noAudioUpd, errHide⟩ ∧
    (hist ++ [userTurn [textPart ui], assistantTurn "hi"]).length = hist.length + 2 ∧
    (format_conversation_for_gradio
        (hist ++ [userTurn [textPart ui], assistantTurn "hi"])).getLast? =
      some { role := "assistant", content := PyVal.str "hi" } := by
  refine ⟨?_, by simp, ?_⟩
  · rw [chat_text_only env hist ui h1]
    simp [afterAudio, h2, h3, pyContains, pyDotGet, dictGet, earlyReturn]
  · have hfmt : formatEntryContent (PyVal.list [textPart "hi"]) = PyVal.str "hi" := rfl
    simp [format_conversation_for_gradio, List.getLast?_append_cons, assistantTurn, hfmt]

/-- Witness for C1 at the concrete input `"hello"` on the empty history. -/
theorem chat_success_appends_two_turns_witness :
    ((pyStrip "hello").isEmpty = false ∧
      (baseEnv (fun _ => Except.ok "B")
          (fun _ => some (PyVal.dict [("response", PyVal.str "hi")]))).apiPost
        ([] ++ [userTurn [textPart "hello"]]) = Except.ok "B") ∧
    (chat_with_api (baseEnv (fun _ => Except.ok "B")
        (fun _ => some (PyVal.dict [("response", PyVal.str "hi")]))) "hello" Option.none [] =
      ChatOutcome.ok ⟨[] ++ [userTurn [textPart "hello"], assistantTurn "hi"],
        format_conversation_for_gradio ([] ++ [userTurn [textPart "hello"], assistantTurn "hi"]),
        noAudioUpd, errHide⟩ ∧
    ([] ++ [userTurn [textPart "hello"], assistantTurn "hi"]).length =
      ([] : List Entry).length + 2 ∧
    (format_conversation_for_gradio
        ([] ++ [userTurn [textPart "hello"], assistantTurn "hi"])).getLast? =
      some { role := "assistant", content := PyVal.str "hi" }) :=
  ⟨⟨by decide, rfl⟩,
    chat_success_appends_two_turns _ [] "hello" "B" (by decide) rfl rfl⟩

/-- Claim C7: a submission that reaches the API call and gets back
`{"error": "bad token"}` appends only the user turn (history grows by one)
and the displayed error text is exactly `"bad token"`. -/
theorem api_reported_error_single_turn (env : Env) (hist : List Entry) (ui : String)
    (audio_file : Option String) (uc : List PyVal) (body : String)
    (h0 : audioPhase env ui audio_file hist = Sum.inr uc)
    (h1 : uc.isEmpty = false)
    (h2 : env.apiPost (hist ++ [userTurn uc]) = Except.ok body)
    (h3 : env.jsonLoads body = some (PyVal.dict [("error", PyVal.str "bad token")])) :
    chat_with_api env ui audio_file hist =
      ChatOutcome.ok ⟨hist ++ [userTurn uc],
        format_conversation_for_gradio (hist ++ [userTurn uc]),
        noAudioUpd, errShow "bad token"⟩ ∧
    (hist ++ [userTurn uc]).length = hist.length + 1 := by
  have hstrip : pyStrip "bad token" = "bad token" := rfl
  have hne : ("bad token").isEmpty = false := rfl
  refine ⟨?_, by simp⟩
  simp [chat_with_api, h0, afterAudio, h1, h2, h3, pyContains, errorField, dictGet,
    earlyReturn, hstrip, hne]

/-- Witness for C7 at the concrete input `"hi"` on the empty history. -/
theorem api_reported_error_single_turn_witness :
    (audioPhase (baseEnv (fun _ => Except.ok "B")
        (fun _ => some (PyVal.dict [("error", PyVal.str "bad token")]))) "hi" Option.none [] =
      Sum.inr [textPart "hi"] ∧ ([textPart "hi"] : List PyVal).isEmpty = false) ∧
    (chat_with_api (baseEnv (fun _ => Except.ok "B")
        (fun _ => some (PyVal.dict [("error", PyVal.str "bad token")]))) "hi" Option.none [] =
      ChatOutcome.ok ⟨[] ++ [userTurn [textPart "hi"]],
        format_conversation_for_gradio ([] ++ [userTurn [textPart "hi"]]),
        noAudioUpd, errShow "bad token"⟩ ∧
    ([] ++ [userTurn [textPart "hi"]]).length = ([] : List Entry).length + 1) :=
  ⟨⟨rfl, rfl⟩,
    api_reported_error_single_turn _ [] "hi" Option.none [textPart "hi"] "B" rfl rfl rfl rfl⟩

/-- Claim C8: a submission that reaches the API call and gets back a body the
JSON decoder rejects yields the invalid-JSON error message; the user turn
stays appended and no assistant turn is added (the history is exactly the old
history plus the user turn). -/
theorem invalid_json_keeps_user_turn (env : Env) (hist : List Entry) (ui : String)
    (audio_file : Option String) (uc : List PyVal) (body : String)
    (h0 : audioPhase env ui audio_file hist = Sum.inr uc)
    (h1 : uc.isEmpty = false)
    (h2 : env.apiPost (hist ++ [userTurn uc]) = Except.ok body)
    (h3 : env.jsonLoads body = Option.none) :
    chat_with_api env ui audio_file hist =
      ChatOutcome.ok ⟨hist ++ [userTurn uc],
        format_conversation_for_gradio (hist ++ [userTurn uc]),
        noAudioUpd, errShow "⚠️ API Error: Invalid JSON response."⟩ ∧
    (hist ++ [userTurn uc]).length = hist.length + 1 := by
  refine ⟨?_, by simp⟩
  simp [chat_with_api, h0, afterAudio, h1, h2, h3, earlyReturn]

/-- Witness for C8 at the concrete input `"hi"` with an undecodable body. -/
theorem invalid_json_keeps_user_turn_witness :
    (audioPhase (baseEnv (fun _ => Except.ok "nonsense") (fun _ => Option.none))
        "hi" Option.none [] = Sum.inr [textPart "hi"] ∧
      ([textPart "hi"] : List PyVal).isEmpty = false) ∧
    (chat_with_api (baseEnv (fun _ => Except.ok "nonsense") (fun _ => Option.none))
        "hi" Option.none [] =
      ChatOutcome.ok ⟨[] ++ [userTurn [textPart "hi"]],
        format_conversation_for_gradio ([] ++ [userTurn [textPart "hi"]]),
        noAudioUpd, errShow "⚠️ API Error: Invalid JSON response."⟩ ∧
    ([] ++ [userTurn [textPart "hi"]]).length = ([] : List Entry).length + 1) :=
  ⟨⟨rfl, rfl⟩,
    invalid_json_keeps_user_turn _ [] "hi" Option.none [textPart "hi"] "nonsense" rfl rfl rfl rfl⟩

/-- When the normalizer finds a `"text"` part, it passes its value through. -/
theorem formatEntryContent_text (c v : PyVal) (hv : textPartOf c = some v) :
    formatEntryContent c = v := by
  cases c with
  | none => simp [textPartOf] at hv
  | bool b => simp [textPartOf] at hv
  | int n => simp [textPartOf] at hv
  | str s => simp [textPartOf] at hv
  | dict kvs =>
    simp only [textPartOf] at hv
    simp [formatEntryContent, hv]
  | list xs =>
    cases xs with
    | nil => simp [textPartOf] at hv
    | cons hd tl =>
      cases hd with
      | dict kvs =>
        simp only [textPartOf] at hv
        simp [formatEntryContent, hv]
      | none => simp [textPartOf] at hv
      | bool b => simp [textPartOf] at hv
      | int n => simp [textPartOf] at hv
      | str s => simp [textPartOf] at hv
      | list ys => simp [textPartOf] at hv

/-- When no `"text"` part is found, the normalizer falls back to some debug
string. -/
theorem formatEntryContent_fallback (c : PyVal) (hv : textPartOf c = Option.none) :
    ∃ s, formatEntryContent c = PyVal.str s := by
  cases c with
  | none => exact ⟨_, rfl⟩
  | bool b => exact ⟨_, rfl⟩
  | int n => exact ⟨_, rfl⟩
  | str s => exact ⟨_, rfl⟩
  | dict kvs =>
    simp only [textPartOf] at hv
    exact ⟨pyRepr (PyVal.dict kvs), by simp [formatEntryContent, hv]⟩
  | list xs =>
    cases xs with
    | nil => exact ⟨_, rfl⟩
    | cons hd tl =>
      cases hd with
      | dict kvs =>
        simp only [textPartOf] at hv
        exact ⟨pyRepr (PyVal.dict kvs), by simp [formatEntryContent, hv]⟩
      | none => exact ⟨_, rfl⟩
      | bool b => exact ⟨_, rfl⟩
      | int n => exact ⟨_, rfl⟩
      | str s => exact ⟨_, rfl⟩
      | list ys => exact ⟨_, rfl⟩

/-- Each zipped input/output pair of the normalizer is related pointwise. -/
theorem mem_zip_format (hl : List Entry) (p : Entry × DisplayEntry)
    (hp : p ∈ hl.zip (format_conversation_for_gradio hl)) :
    p.2 = { role := p.1.role, content := formatEntryContent p.1.content } := by
  induction hl with
  | nil => simp [format_conversation_for_gradio] at hp
  | cons e t ih =>
    rw [format_conversation_for_gradio, List.map_cons, List.zip_cons_cons] at hp
    rcases List.mem_cons.mp hp with h | h
    · subst h; rfl
    · exact ih h

/-- Claim C3: the normalizer is total — for every stored history it returns
one `{role, text}` pair per element, preserving the role; the displayed
content is the `"text"` part of the entry when one is found and a (string) debug
representation otherwise. -/
theorem toDisplayForm_total (hl : List Entry) :
    (format_conversation_for_gradio hl).length = hl.length ∧
    ∀ p ∈ hl.zip (format_conversation_for_gradio hl),
      p.2.role = p.1.role ∧
      (∀ v, textPartOf p.1.content = some v → p.2.content = v) ∧
      (textPartOf p.1.content = Option.none → ∃ s, p.2.content = PyVal.str s) := by
  refine ⟨by simp [format_conversation_for_gradio], ?_⟩
  intro p hp
  have h2 := mem_zip_format hl p hp
  refine ⟨by rw [h2], ?_, ?_⟩
  · intro v hv
    rw [h2]
    exact formatEntryContent_text _ v hv
  · intro hv
    rw [h2]
    exact formatEntryContent_fallback _ hv

/-- Witness for C3 at the concrete two-entry history whose first content is a
bare int (fallback case) and whose second carries a text part. -/
theorem toDisplayForm_total_witness :
    (format_conversation_for_gradio [⟨"user", PyVal.int 3⟩, assistantTurn "ok"]).length =
      ([⟨"user", PyVal.int 3⟩, assistantTurn "ok"] : List Entry).length ∧
    ∀ p ∈ ([⟨"user", PyVal.int 3⟩, assistantTurn "ok"] : List Entry).zip
        (format_conversation_for_gradio [⟨"user", PyVal.int 3⟩, assistantTurn "ok"]),
      p.2.role = p.1.role ∧
      (∀ v, textPartOf p.1.content = some v → p.2.content = v) ∧
      (textPartOf p.1.content = Option.none → ∃ s, p.2.content = PyVal.str s) :=
  toDisplayForm_total [⟨"user", PyVal.int 3⟩, assistantTurn "ok"]

/-- The invariant of the data model in the spec: a non-empty role and (Python-)
truthy, hence non-empty, content. -/
def entryOK (e : Entry) : Prop := e.role ≠ "" ∧ pyTruthy e.content = true

/-- Every entry of the history satisfies `entryOK`. -/
def histOK (hl : List Entry) : Prop := ∀ e ∈ hl, entryOK e

/-- Appending preserves `histOK`. -/
theorem histOK_append (l1 l2 : List Entry) (h1 : histOK l1) (h2 : histOK l2) :
    histOK (l1 ++ l2) := by
  intro e he
  rcases List.mem_append.mp he with h | h
  · exact h1 e h
  · exact h2 e h

/-- A one-entry history of a good entry is good. -/
theorem histOK_singleton (e : Entry) (he : entryOK e) : histOK [e] := by
  intro x hx
  rw [List.mem_singleton] at hx
  subst hx
  exact he

/-- The user turn the program appends is a good entry: role `"user"` and a
non-empty content list (guarded by the line-105 emptiness check). -/
theorem entryOK_userTurn (uc : List PyVal) (h : ¬uc.isEmpty = true) :
    entryOK (userTurn uc) := by
  constructor
  · simp [userTurn]
  · simp only [userTurn, pyTruthy]
    simp [Bool.not_eq_true] at h
    simp [h]

/-- The assistant turn the program appends is a good entry. -/
theorem entryOK_assistantTurn (s : String) : entryOK (assistantTurn s) := by
  constructor
  · simp [assistantTurn]
  · simp [assistantTurn, pyTruthy]

/-- On the early-return side, the audio phase leaves the history unchanged. -/
def inlKeepsHist (hist : List Entry) : Sum ChatOutcome (List PyVal) → Prop
  | Sum.inl o => o.histOf = hist
  | Sum.inr _ => True

/-- Every early return (or raise) of the audio phase carries the unchanged
history. -/
theorem audioPhase_keepsHist (env : Env) (ui : String) (audio_file : Option String)
    (hist : List Entry) :
    inlKeepsHist hist (audioPhase env ui audio_file hist) := by
  simp only [audioPhase]
  repeat' split
  all_goals first
    | exact rfl
    | trivial

/-- The phase `afterAudio` preserves the history invariant: it appends only turns with
role `"user"`/`"assistant"` and non-empty content lists. -/
theorem afterAudio_histOK (env : Env) (hist : List Entry) (uc : List PyVal)
    (hinv : histOK hist) :
    histOK ((afterAudio env hist uc).histOf) := by
  simp only [afterAudio]
  repeat' split
  all_goals first
    | exact hinv
    | exact histOK_append _ _ hinv (histOK_singleton _ (entryOK_userTurn _ (by assumption)))
    | exact histOK_append _ _
        (histOK_append _ _ hinv (histOK_singleton _ (entryOK_userTurn _ (by assumption))))
        (histOK_singleton _ (entryOK_assistantTurn _))

/-- Claim C4: every mutation of the conversation history — the user-turn
append, the assistant-turn append (through any outcome of `chat_with_api`,
normal or raised) and `reset_conversation` — preserves the invariant that
every element has a non-empty role and non-empty (truthy) content. -/
theorem history_invariant_preserved (env : Env) (ui : String) (audio_file : Option String)
    (hist : List Entry) (hinv : histOK hist) :
    histOK ((chat_with_api env ui audio_file hist).histOf) ∧
    histOK reset_conversation.1 := by
  constructor
  · have hk := audioPhase_keepsHist env ui audio_file hist
    unfold chat_with_api
    cases haud : audioPhase env ui audio_file hist with
    | inl o =>
      rw [haud] at hk
      have h2 : o.histOf = hist := hk
      show histOK o.histOf
      rw [h2]
      exact hinv
    | inr uc =>
      show histOK ((afterAudio env hist uc).histOf)
      exact afterAudio_histOK env hist uc hinv
  · intro e he
    simp [reset_conversation] at he

/-- Witness for C4 on the empty history with a concrete text submission. -/
theorem history_invariant_preserved_witness :
    histOK ((chat_with_api (baseEnv (fun _ => Except.ok "B") (fun _ => Option.none))
        "hi" Option.none []).histOf) ∧
    histOK reset_conversation.1 :=
  history_invariant_preserved _ "hi" Option.none [] (by simp [histOK])

/-- A normal return has the audio slot cleared (`gr.update(value=None)`);
a raise returns nothing. -/
def okAudioNone : ChatOutcome → Prop
  | ChatOutcome.ok r => r.audio = noAudioUpd
  | ChatOutcome.raised _ _ => True

/-- Lifted to the audio-phase result. -/
def inlOkAudioNone : Sum ChatOutcome (List PyVal) → Prop
  | Sum.inl o => okAudioNone o
  | Sum.inr _ => True

/-- Every early return of the audio phase clears the audio slot. -/
theorem audioPhase_okAudioNone (env : Env) (ui : String) (audio_file : Option String)
    (hist : List Entry) :
    inlOkAudioNone (audioPhase env ui audio_file hist) := by
  simp only [audioPhase]
  repeat' split
  all_goals first
    | exact rfl
    | trivial

/-- Every return of `afterAudio` clears the audio slot. -/
theorem afterAudio_okAudioNone (env : Env) (hist : List Entry) (uc : List PyVal) :
    okAudioNone (afterAudio env hist uc) := by
  simp only [afterAudio]
  repeat' split
  all_goals first
    | exact rfl
    | trivial

/-- Claim C10: every normal return of `chat_with_api` — the silent no-op,
every error branch and the success path — carries `gr.update(value=None)` for
the audio slot, clearing the recorded clip. -/
theorem audio_slot_reset (env : Env) (ui : String) (audio_file : Option String)
    (hist : List Entry) (r : ChatResult)
    (h : chat_with_api env ui audio_file hist = ChatOutcome.ok r) :
    r.audio.value = PyVal.none := by
  unfold chat_with_api at h
  cases haud : audioPhase env ui audio_file hist with
  | inl o =>
    have hk := audioPhase_okAudioNone env ui audio_file hist
    rw [haud] at hk h
    have ho : o = ChatOutcome.ok r := h
    subst ho
    have h3 : r.audio = noAudioUpd := hk
    rw [h3]
    rfl
  | inr uc =>
    rw [haud] at h
    have h2 := afterAudio_okAudioNone env hist uc
    have hh : afterAudio env hist uc = ChatOutcome.ok r := h
    rw [hh] at h2
    have h3 : r.audio = noAudioUpd := h2
    rw [h3]
    rfl

/-- Witness for C10 at the silent no-op return. -/
theorem audio_slot_reset_witness :
    chat_with_api (baseEnv (fun _ => Except.ok "B") (fun _ => Option.none)) "" Option.none [] =
      ChatOutcome.ok ⟨[], [], noAudioUpd, errHide⟩ ∧
    (⟨[], [], noAudioUpd, errHide⟩ : ChatResult).audio.value = PyVal.none :=
  ⟨rfl, audio_slot_reset (baseEnv (fun _ => Except.ok "B") (fun _ => Option.none))
    "" Option.none [] ⟨[], [], noAudioUpd, errHide⟩ rfl⟩
